import Mathlib

/-!
Verification development for the post-provision / bootstrap readiness-gate
subsystem of the cloud-on-k8s repository.

The Go sources are shallowly embedded as Lean definitions:

* Kubernetes annotation maps (`map[string]string`, possibly nil) are embedded
  as `Option (List (String × String))`; `none` is the nil map.  Go map indexing
  `m[k]` returns the empty string when the key is absent, which `getAnn`
  mirrors; Go map assignment `m[k] = v` is `setAnn` (replace the binding if
  the key is present, append otherwise).
* The two revisions of the annotation helpers present in the repository are
  both embedded: the gate-less `IsPostProvisionComplete` of
  pkg/controller/common/annotation/postprovision.go and the gate-aware
  `IsPostProvisionComplete` / `IsBootstrapped` pair of the other revision.
* External effects (Kubernetes get/update calls, HTTP requests, watch events)
  are passed in explicitly as values describing their outcomes, so every
  embedded function is pure and executable.
-/

namespace CloudOnK8s

/-- Association-list embedding of a Go `map[string]string`. -/
abbrev AnnMap := List (String × String)

/-- Lookup of a key in an annotation map, first binding wins. -/
def lookupAnn : AnnMap → String → Option String
| [], _ => none
| (k', v') :: rest, k => if k' = k then some v' else lookupAnn rest k

/-- Go map read `m[k]` over a possibly-nil map: empty string when the map is
nil or the key is missing. -/
def getAnn (m : Option AnnMap) (k : String) : String :=
  (lookupAnn (m.getD []) k).getD ""

/-- Go map assignment `m[k] = v`: replace the existing binding for `k` or
append a new one. -/
def setAnn : AnnMap → String → String → AnnMap
| [], k, v => [(k, v)]
| (k', v') :: rest, k, v => if k' = k then (k, v) :: rest else (k', v') :: setAnn rest k v

/-- Embedding of `metav1.ObjectMeta` restricted to the field the annotation
helpers read. -/
structure ObjectMeta where
  annotations : Option AnnMap
deriving DecidableEq, Repr

/-- Go `len(objMeta.Annotations)`: 0 for a nil map. -/
def annLen (m : ObjectMeta) : Nat :=
  (m.annotations.getD []).length

/-- Annotation key `eck.k8s.elastic.co/post-provision-complete`. -/
def ppCompleteKey : String := "eck.k8s.elastic.co/post-provision-complete"

/-- Annotation key `eck.k8s.elastic.co/post-provision-readiness-gate`. -/
def ppGateKey : String := "eck.k8s.elastic.co/post-provision-readiness-gate"

/-- Annotation key `eck.k8s.elastic.co/bootstrapped`. -/
def bootstrappedKey : String := "eck.k8s.elastic.co/bootstrapped"

/-- Annotation key `eck.k8s.elastic.co/bootstrap-readiness-gate`. -/
def bootstrapGateKey : String := "eck.k8s.elastic.co/bootstrap-readiness-gate"

/-- Embedding of the gate-less `IsPostProvisionComplete` found in
src/pkg/controller/common/annotation/postprovision.go (lines 16-22): false
when the annotation map is empty or nil, otherwise true iff the completion
annotation equals "true". -/
def isPostProvisionCompleteNoGate (m : ObjectMeta) : Bool :=
  if annLen m = 0 then false
  else getAnn m.annotations ppCompleteKey == "true"

/-- Embedding of `GetPostProvisionReadinessGate` (gate-aware revision,
src/unnamed/part_003 lines 149-156). -/
def getPostProvisionReadinessGate (m : ObjectMeta) : String :=
  if annLen m = 0 then ""
  else getAnn m.annotations ppGateKey

/-- Embedding of the gate-aware `IsPostProvisionComplete`
(src/unnamed/part_003 lines 158-165): true when no gate annotation is set,
otherwise true iff the completion annotation equals "true". -/
def isPostProvisionComplete (m : ObjectMeta) : Bool :=
  if getPostProvisionReadinessGate m == "" then true
  else getAnn m.annotations ppCompleteKey == "true"

/-- Embedding of `GetBootstrapReadinessGate` (src/unnamed/part_004 lines
19-25). -/
def getBootstrapReadinessGate (m : ObjectMeta) : String :=
  if annLen m = 0 then ""
  else getAnn m.annotations bootstrapGateKey

/-- Embedding of `IsBootstrapped` (src/unnamed/part_004 lines 28-34). -/
def isBootstrapped (m : ObjectMeta) : Bool :=
  if getBootstrapReadinessGate m == "" then true
  else getAnn m.annotations bootstrappedKey == "true"

/-- Embedding of a `runtime.Object` as seen through `meta.NewAccessor`:
metadata fields plus an opaque remainder `rest` standing for every
non-metadata field.  A Go nil object is `Option.none` at use sites. -/
structure K8sObject (α : Type) where
  name : String
  nspace : String
  labels : Option AnnMap
  annotations : Option AnnMap
  rest : α
deriving DecidableEq, Repr

/-- Shared body of `SetPostProvisionComplete`
(src/pkg/controller/common/annotation/postprovision.go lines 25-44) and
`SetBootstrapped` (src/unnamed/part_004 lines 37-56), which are textually
identical up to the annotation key: nil object is returned unchanged
(success, no modification); a nil annotation map is initialized; the key is
set to "true" and the map written back. -/
def setCompletionKey {α : Type} (key : String) : Option (K8sObject α) → Option (K8sObject α)
| none => none
| some obj => some { obj with annotations := some (setAnn (obj.annotations.getD []) key "true") }

/-- Embedding of `SetPostProvisionComplete`. -/
def setPostProvisionComplete {α : Type} (o : Option (K8sObject α)) : Option (K8sObject α) :=
  setCompletionKey ppCompleteKey o

/-- Embedding of `SetBootstrapped`. -/
def setBootstrapped {α : Type} (o : Option (K8sObject α)) : Option (K8sObject α) :=
  setCompletionKey bootstrappedKey o

/-- Annotation read on an embedded object, distinguishing absence from the
empty string (used to state frame properties). -/
def annLookup {α : Type} (o : K8sObject α) (k : String) : Option String :=
  lookupAnn (o.annotations.getD []) k

theorem lookupAnn_setAnn (l : AnnMap) (k v k' : String) :
    lookupAnn (setAnn l k v) k' = if k' = k then some v else lookupAnn l k' := by
  induction l with
  | nil =>
    by_cases h : k' = k
    · subst h; simp [setAnn, lookupAnn]
    · simp [setAnn, lookupAnn, h, Ne.symm h]
  | cons p rest ih =>
    obtain ⟨a, b⟩ := p
    by_cases hak : a = k
    · subst hak
      by_cases h : k' = a
      · subst h; simp [setAnn, lookupAnn]
      · simp [setAnn, lookupAnn, h, Ne.symm h]
    · by_cases h : a = k'
      · subst h
        simp [setAnn, lookupAnn, hak, Ne.symm hak]
      · simp [setAnn, lookupAnn, hak, h, ih]

theorem setAnn_setAnn (l : AnnMap) (k v : String) :
    setAnn (setAnn l k v) k v = setAnn l k v := by
  induction l with
  | nil => simp [setAnn]
  | cons p rest ih =>
    obtain ⟨a, b⟩ := p
    by_cases hak : a = k
    · subst hak
      simp [setAnn]
    · simp [setAnn, hak, ih]

/-- C1 counterexample: the empty object metadata carries no gate annotation,
yet the gate-less `IsPostProvisionComplete` of
src/pkg/controller/common/annotation/postprovision.go returns false on it
(its own unit test asserts this), refuting the claim that `IsComplete`
returns true whenever no gate annotation is set. -/
theorem C1_counterexample :
    getPostProvisionReadinessGate (ObjectMeta.mk none) = "" ∧
    isPostProvisionCompleteNoGate (ObjectMeta.mk none) = false := by
  constructor <;> rfl

/-- C1 amended: the gate-aware `IsPostProvisionComplete` and `IsBootstrapped`
return true whenever no gate annotation is set (regardless of the completion
annotation) and, when a gate is set, true iff the completion annotation
equals "true"; the gate-less `IsPostProvisionComplete` instead returns true
iff the annotation map is non-empty and the completion annotation equals
"true", with no gate check at all. -/
theorem C1_isComplete_gate_semantics :
    (∀ m : ObjectMeta, getPostProvisionReadinessGate m = "" → isPostProvisionComplete m = true) ∧
    (∀ m : ObjectMeta, getPostProvisionReadinessGate m ≠ "" →
      (isPostProvisionComplete m = true ↔ getAnn m.annotations ppCompleteKey = "true")) ∧
    (∀ m : ObjectMeta, getBootstrapReadinessGate m = "" → isBootstrapped m = true) ∧
    (∀ m : ObjectMeta, getBootstrapReadinessGate m ≠ "" →
      (isBootstrapped m = true ↔ getAnn m.annotations bootstrappedKey = "true")) ∧
    (∀ m : ObjectMeta, isPostProvisionCompleteNoGate m = true ↔
      (annLen m ≠ 0 ∧ getAnn m.annotations ppCompleteKey = "true")) := by
  refine ⟨?_, ?_, ?_, ?_, ?_⟩
  · intro m h
    simp [isPostProvisionComplete, h]
  · intro m h
    simp only [isPostProvisionComplete, beq_iff_eq]
    rw [if_neg h]
    simp
  · intro m h
    simp [isBootstrapped, h]
  · intro m h
    simp only [isBootstrapped, beq_iff_eq]
    rw [if_neg h]
    simp
  · intro m
    unfold isPostProvisionCompleteNoGate
    by_cases h : annLen m = 0
    · simp [h]
    · simp [h]

/-- C1 witness: a concrete metadata with a gate annotation set and the
completion annotation equal to "true" is reported complete by the gate-aware
function. -/
theorem C1_isComplete_gate_semantics_witness :
    isPostProvisionComplete (ObjectMeta.mk (some [(ppGateKey, "mygate"), (ppCompleteKey, "true")])) = true :=
  (C1_isComplete_gate_semantics.2.1 (ObjectMeta.mk (some [(ppGateKey, "mygate"), (ppCompleteKey, "true")]))
    (by decide)).mpr (by decide)

/-- C9: `SetPostProvisionComplete` and `SetBootstrapped` are idempotent,
return a nil object unchanged (success without modification), and succeed on
an object whose annotation map is nil by initializing the map with the single
completion binding. -/
theorem C9_setComplete_idempotent :
    (∀ (α : Type) (o : Option (K8sObject α)),
      setPostProvisionComplete (setPostProvisionComplete o) = setPostProvisionComplete o) ∧
    (∀ (α : Type) (o : Option (K8sObject α)),
      setBootstrapped (setBootstrapped o) = setBootstrapped o) ∧
    setPostProvisionComplete (none : Option (K8sObject Unit)) = none ∧
    setBootstrapped (none : Option (K8sObject Unit)) = none ∧
    (∀ (α : Type) (n ns : String) (lb : Option AnnMap) (r : α),
      setPostProvisionComplete (some (K8sObject.mk n ns lb none r)) =
        some (K8sObject.mk n ns lb (some [(ppCompleteKey, "true")]) r)) ∧
    (∀ (α : Type) (n ns : String) (lb : Option AnnMap) (r : α),
      setBootstrapped (some (K8sObject.mk n ns lb none r)) =
        some (K8sObject.mk n ns lb (some [(bootstrappedKey, "true")]) r)) := by
  refine ⟨?_, ?_, rfl, rfl, ?_, ?_⟩
  · intro α o
    cases o with
    | none => rfl
    | some obj => simp [setPostProvisionComplete, setCompletionKey, setAnn_setAnn]
  · intro α o
    cases o with
    | none => rfl
    | some obj => simp [setBootstrapped, setCompletionKey, setAnn_setAnn]
  · intro α n ns lb r
    simp [setPostProvisionComplete, setCompletionKey, setAnn]
  · intro α n ns lb r
    simp [setBootstrapped, setCompletionKey, setAnn]

/-- C10: `SetPostProvisionComplete` on a non-nil object changes only the
completion-annotation key: every other annotation key keeps its previous
value, no annotation is removed, and all non-annotation fields are
unchanged. -/
theorem C10_setComplete_frame :
    ∀ (α : Type) (o o' : K8sObject α), setPostProvisionComplete (some o) = some o' →
      (∀ k : String, k ≠ ppCompleteKey → annLookup o' k = annLookup o k) ∧
      (∀ k : String, (annLookup o k).isSome → (annLookup o' k).isSome) ∧
      o'.name = o.name ∧ o'.nspace = o.nspace ∧ o'.labels = o.labels ∧ o'.rest = o.rest := by
  intro α o o' h
  simp only [setPostProvisionComplete, setCompletionKey, Option.some.injEq] at h
  subst h
  refine ⟨?_, ?_, rfl, rfl, rfl, rfl⟩
  · intro k hk
    simp [annLookup, lookupAnn_setAnn, hk]
  · intro k hk
    by_cases hkey : k = ppCompleteKey
    · subst hkey
      simp [annLookup, lookupAnn_setAnn]
    · simpa [annLookup, lookupAnn_setAnn, hkey] using hk

/-- C10 witness: on a concrete object carrying one unrelated annotation, the
frame theorem yields that the unrelated key and the opaque payload are
untouched by `SetPostProvisionComplete`. -/
theorem C10_setComplete_frame_witness :
    annLookup (K8sObject.mk "es" "default" none (some [("other", "v"), (ppCompleteKey, "true")]) (0 : Nat)) "other"
      = annLookup (K8sObject.mk "es" "default" none (some [("other", "v")]) (0 : Nat)) "other" :=
  ((C10_setComplete_frame Nat
      (K8sObject.mk "es" "default" none (some [("other", "v")]) 0)
      (K8sObject.mk "es" "default" none (some [("other", "v"), (ppCompleteKey, "true")]) 0)
      (by decide)).1) "other" (by decide)

/-- Resource kinds accepted by `ResourceKind.UnmarshalJSON`
(src/pkg/bootstrap/model.go lines 36-57); `Elasticsearch` is the only
variant. -/
inductive ResourceKind
| elasticsearch
deriving DecidableEq, Repr

/-- HTTP verbs accepted by `APIMethod.UnmarshalJSON`
(src/pkg/bootstrap/model.go lines 123-156). -/
inductive APIMethod
| get
| head
| post
| put
| patch
| delete
deriving DecidableEq, Repr

/-- Embedding of `APICall` (src/pkg/bootstrap/model.go lines 103-110); the
raw payload bytes are kept as a string. -/
structure APICall where
  method : APIMethod
  path : String
  payload : String
  successCodes : List Int
  retry : Bool
deriving DecidableEq, Repr

/-- Embedding of `APICall.IsSuccessful` (model.go lines 112-121): membership
of the status code in `successCodes`. -/
def APICall.isSuccessful (ac : APICall) (code : Int) : Bool :=
  ac.successCodes.contains code

/-- Embedding of `ClientConf` (model.go lines 59-65).  Durations are Go
`time.Duration` values, embedded as integer nanosecond counts; the uint8
`retryAttempts` is a Nat (every stored value fits in uint8 because the JSON
decoder rejects larger numbers). -/
structure ClientConf where
  requestTimeout : Int
  retryAttempts : Nat
  retryBackoff : Int
  retryMaxDuration : Int
deriving DecidableEq, Repr

/-- Embedding of `wait.Backoff` restricted to the fields `ToBackoff` writes;
the float64 factor and jitter only ever hold the exact constants 2 and 0.5,
embedded as rationals. -/
structure Backoff where
  duration : Int
  factor : ℚ
  jitter : ℚ
  steps : Int
  cap : Int
deriving DecidableEq, Repr

/-- Embedding of `ClientConf.ToBackoff` (model.go lines 67-82): a nil config
yields the zero backoff with `Steps = 1`; otherwise the fields are copied
with factor 2 and jitter 0.5. -/
def toBackoff : Option ClientConf → Backoff
| none => { duration := 0, factor := 0, jitter := 0, steps := 1, cap := 0 }
| some cc =>
  { duration := cc.retryBackoff
    factor := 2
    jitter := 1/2
    steps := (cc.retryAttempts : Int)
    cap := cc.retryMaxDuration }

/-- Embedding of `ResourceRef` (model.go lines 29-34). -/
structure ResourceRef where
  kind : ResourceKind
  name : String
  nspace : String
deriving DecidableEq, Repr

/-- Embedding of the bootstrap `JobDef` (model.go lines 22-27). -/
structure JobDef where
  target : ResourceRef
  apiCalls : List APICall
  clientConf : Option ClientConf
deriving DecidableEq, Repr

/-- Nanoseconds per second, the unit of Go `time.Duration` literals such as
`10 * time.Second`. -/
def nsPerSecond : Int := 1000000000

/-- C8: `ToBackoff` of a nil clientConf is the single-step zero policy (no
retry possible); of a present clientConf it is the policy with base duration
`retryBackoff`, factor 2, jitter 0.5, steps `retryAttempts`, cap
`retryMaxDuration`; instantiated at the spec's example
{retryAttempts:3, retryBackoff:10s, retryMaxDuration:300s}. -/
theorem C8_toBackoff_policy :
    toBackoff none = { duration := 0, factor := 0, jitter := 0, steps := 1, cap := 0 } ∧
    (toBackoff none).steps = 1 ∧
    (∀ cc : ClientConf, toBackoff (some cc) =
      { duration := cc.retryBackoff, factor := 2, jitter := 1/2,
        steps := (cc.retryAttempts : Int), cap := cc.retryMaxDuration }) ∧
    toBackoff (some { requestTimeout := 30 * nsPerSecond, retryAttempts := 3,
                      retryBackoff := 10 * nsPerSecond, retryMaxDuration := 300 * nsPerSecond }) =
      { duration := 10 * nsPerSecond, factor := 2, jitter := 1/2, steps := 3,
        cap := 300 * nsPerSecond } :=
  ⟨rfl, rfl, fun _ => rfl, rfl⟩

/-- Raw `clientConf` document: duration fields are the textual strings the
wire format carries before `Duration.UnmarshalJSON` parses them. -/
structure RawClientConf where
  requestTimeout : String
  retryAttempts : Nat
  retryBackoff : String
  retryMaxDuration : String
deriving DecidableEq, Repr

/-- Raw `apiCalls` entry: the method is still the textual verb. -/
structure RawAPICall where
  method : String
  path : String
  payload : String
  successCodes : List Int
  retry : Bool
deriving DecidableEq, Repr

/-- Raw job-definition document as decoded from YAML/JSON, before the custom
`UnmarshalJSON` hooks for kind, method and durations run. -/
structure RawJobDef where
  kind : String
  name : String
  nspace : String
  apiCalls : List RawAPICall
  clientConf : Option RawClientConf
deriving DecidableEq, Repr

/-- Embedding of `ResourceKind.UnmarshalJSON` (model.go lines 43-57). -/
def unmarshalResourceKind (s : String) : Except String ResourceKind :=
  if s = "Elasticsearch" then .ok .elasticsearch
  else .error ("unknown resource kind: " ++ s)

/-- Embedding of `APIMethod.UnmarshalJSON` (model.go lines 135-156). -/
def unmarshalAPIMethod (s : String) : Except String APIMethod :=
  if s = "GET" then .ok .get
  else if s = "HEAD" then .ok .head
  else if s = "POST" then .ok .post
  else if s = "PUT" then .ok .put
  else if s = "PATCH" then .ok .patch
  else if s = "DELETE" then .ok .delete
  else .error ("unknown method: " ++ s)

/-- Decoding of one raw API call: `APIMethod.UnmarshalJSON` runs on the
method field; its error aborts the decode. -/
def decodeAPICall (r : RawAPICall) : Except String APICall := do
  let m ← unmarshalAPIMethod r.method
  pure { method := m, path := r.path, payload := r.payload,
         successCodes := r.successCodes, retry := r.retry }

/-- Decoding of a raw clientConf.  The external `time.ParseDuration` is
passed in as `parseDur` (nanoseconds on success); `Duration.UnmarshalJSON`
(model.go lines 87-101) fails exactly when the parser fails. -/
def decodeClientConf (parseDur : String → Except String Int) (r : RawClientConf) :
    Except String ClientConf := do
  let rt ← parseDur r.requestTimeout
  let rb ← parseDur r.retryBackoff
  let rmd ← parseDur r.retryMaxDuration
  pure { requestTimeout := rt, retryAttempts := r.retryAttempts,
         retryBackoff := rb, retryMaxDuration := rmd }

/-- Decoding of a raw job definition by the YAML/JSON decoder: the custom
unmarshal hooks run field by field and the first failure aborts the whole
decode with that single error, exactly as `json.Unmarshal` does.  Field
order follows the struct layout of `JobDef`. -/
def decodeJobDef (parseDur : String → Except String Int) (r : RawJobDef) :
    Except String JobDef := do
  let k ← unmarshalResourceKind r.kind
  let calls ← r.apiCalls.mapM decodeAPICall
  let conf ← match r.clientConf with
    | none => pure none
    | some rc => Except.map some (decodeClientConf parseDur rc)
  pure { target := { kind := k, name := r.name, nspace := r.nspace },
         apiCalls := calls, clientConf := conf }

/-- White-space test of Go `unicode.IsSpace` on the Latin-1 range (space,
tab, newline, vertical tab, form feed, carriage return, NEL, NBSP); the
rarer white-space code points above Latin-1 do not occur in any input
considered here. -/
def isSpaceGo (c : Char) : Bool :=
  c == ' ' || c == '\t' || c == '\n' || c == '\x0B' || c == '\x0C' || c == '\r'
    || c == '\x85' || c == '\xA0'

/-- Embedding of `isEmpty` (model.go lines 198-200): Go
`strings.TrimSpace(s) == ""` holds exactly when every character of `s` is
white space. -/
def isEmptyStr (s : String) : Bool :=
  s.data.all isSpaceGo

/-- Messages appended for blank API-call paths, indexed from the given
counter, mirroring the `for i, ac := range jd.APICalls` loop of `validate`
(model.go lines 185-189). -/
def pathErrs : Nat → List APICall → List String
| _, [] => []
| i, ac :: rest =>
  (if isEmptyStr ac.path then ["API call " ++ toString i ++ " is missing the path field"] else [])
    ++ pathErrs (i + 1) rest

/-- Error descriptions collected by `validate` (model.go lines 174-196), in
source order. -/
def validateErrs (jd : JobDef) : List String :=
  (if isEmptyStr jd.target.name then ["Target name is required"] else []) ++
  (if isEmptyStr jd.target.nspace then ["Target namespace is required"] else []) ++
  pathErrs 0 jd.apiCalls

/-- Embedding of `validate` (model.go lines 174-196): the collected
descriptions are joined with "," into a single error. -/
def validate (jd : JobDef) : Except String Unit :=
  if validateErrs jd = [] then .ok ()
  else .error ("invalid job definition [" ++ String.intercalate "," (validateErrs jd)
    ++ "]: invalid job definition")

/-- Embedding of `Load` (model.go lines 158-172): decode, then validate. -/
def Load (parseDur : String → Except String Int) (r : RawJobDef) : Except String JobDef :=
  match decodeJobDef parseDur r with
  | .error e => .error ("failed to decode job definition: " ++ e)
  | .ok jd =>
    match validate jd with
    | .error e => .error e
    | .ok _ => .ok jd

/-- Stand-in for `time.ParseDuration` used to instantiate concrete inputs:
accepts everything as zero.  The theorems about decode failure quantify over
arbitrary parsers instead. -/
def parseDurOk : String → Except String Int :=
  fun _ => .ok 0

theorem mem_pathErrs (l : List APICall) :
    ∀ (i0 i : Nat) (hi : i < l.length), isEmptyStr (l.get ⟨i, hi⟩).path = true →
      ("API call " ++ toString (i0 + i) ++ " is missing the path field") ∈ pathErrs i0 l := by
  induction l with
  | nil =>
    intro i0 i hi
    exact absurd hi (Nat.not_lt_zero i)
  | cons ac rest ih =>
    intro i0 i hi hblank
    cases i with
    | zero =>
      simp only [List.get] at hblank
      simp [pathErrs, hblank]
    | succ j =>
      have hj : j < rest.length := Nat.lt_of_succ_lt_succ hi
      have hb : isEmptyStr (rest.get ⟨j, hj⟩).path = true := hblank
      have hmem := ih (i0 + 1) j hj hb
      have harith : i0 + (j + 1) = (i0 + 1) + j := by omega
      rw [harith]
      simp only [pathErrs]
      exact List.mem_append_right _ hmem

/-- C4 counterexample: a job definition with two structural violations (an
unrecognized target kind and a blank target name) is rejected by `Load` with
the single decode error for the kind alone; the blank-name violation is not
part of the reported error, refuting the claim that all violations are
collected together. -/
theorem C4_counterexample :
    Load parseDurOk
        { kind := "Frobnicator", name := "", nspace := "default", apiCalls := [], clientConf := none }
      = .error "failed to decode job definition: unknown resource kind: Frobnicator" ∧
    ¬ ("Target name is required".data <:+:
        "failed to decode job definition: unknown resource kind: Frobnicator".data) := by
  refine ⟨rfl, by decide⟩

/-- C4 amended: `Load` is fail-fast for decode-stage violations (unknown
kind, unknown method, unparsable duration): any decode error is surfaced
alone, wrapped once, and validation never runs; only the blank-field
violations (target name, target namespace, API-call paths) are collected and
reported together in one validation error. -/
theorem C4_load_fail_fast_vs_collected :
    (∀ (p : String → Except String Int) (r : RawJobDef) (e : String),
      decodeJobDef p r = .error e →
      Load p r = .error ("failed to decode job definition: " ++ e)) ∧
    (∀ (p : String → Except String Int) (r : RawJobDef) (jd : JobDef),
      decodeJobDef p r = .ok jd →
      isEmptyStr jd.target.name = true →
      isEmptyStr jd.target.nspace = true →
      ∀ (i : Nat) (hi : i < jd.apiCalls.length),
        isEmptyStr (jd.apiCalls.get ⟨i, hi⟩).path = true →
        Load p r = .error ("invalid job definition ["
            ++ String.intercalate "," (validateErrs jd) ++ "]: invalid job definition") ∧
        "Target name is required" ∈ validateErrs jd ∧
        "Target namespace is required" ∈ validateErrs jd ∧
        ("API call " ++ toString i ++ " is missing the path field") ∈ validateErrs jd) := by
  constructor
  · intro p r e h
    simp [Load, h]
  · intro p r jd hdec hname hns i hi hpath
    have hmemName : "Target name is required" ∈ validateErrs jd := by
      simp [validateErrs, hname]
    have hmemNs : "Target namespace is required" ∈ validateErrs jd := by
      simp [validateErrs, hns]
    have hmemPath : ("API call " ++ toString i ++ " is missing the path field") ∈ validateErrs jd := by
      have := mem_pathErrs jd.apiCalls 0 i hi hpath
      rw [Nat.zero_add] at this
      simp [validateErrs, this]
    have hne : validateErrs jd ≠ [] := by
      intro hempty
      rw [hempty] at hmemName
      exact absurd hmemName (List.not_mem_nil _)
    refine ⟨?_, hmemName, hmemNs, hmemPath⟩
    simp [Load, hdec, validate, hne]

/-- C4 witness: a decodable job definition with a blank name, blank
namespace and one blank path is rejected with the three violations joined in
a single error. -/
theorem C4_load_fail_fast_vs_collected_witness :
    Load parseDurOk
        { kind := "Elasticsearch", name := "", nspace := " ",
          apiCalls := [{ method := "POST", path := "", payload := "", successCodes := [200], retry := false }],
          clientConf := none }
      = .error ("invalid job definition ["
          ++ String.intercalate ","
              (validateErrs
                { target := { kind := .elasticsearch, name := "", nspace := " " },
                  apiCalls := [{ method := .post, path := "", payload := "", successCodes := [200], retry := false }],
                  clientConf := none })
          ++ "]: invalid job definition") :=
  (C4_load_fail_fast_vs_collected.2 parseDurOk
    { kind := "Elasticsearch", name := "", nspace := " ",
      apiCalls := [{ method := "POST", path := "", payload := "", successCodes := [200], retry := false }],
      clientConf := none }
    { target := { kind := .elasticsearch, name := "", nspace := " " },
      apiCalls := [{ method := .post, path := "", payload := "", successCodes := [200], retry := false }],
      clientConf := none }
    rfl (by decide) (by decide) 0 (by decide) (by decide)).1

/-- Modelled from the spec: the postprovision package's job-definition type
(the file declaring it is not under src; src/pkg/postprovision/elasticsearch.go
reads `jd.Target`, `jd.APICalls`, `jd.ClientConf` and `jd.NoProgressTimeout`).
Fields are those of the bootstrap `JobDef` plus the `noProgressTimeout`
deadline of spec section 3 (a duration in nanoseconds, zero meaning use the
default). -/
structure PPJobDef where
  target : ResourceRef
  apiCalls : List APICall
  clientConf : Option ClientConf
  noProgressTimeout : Int

/-- Outcome of one HTTP attempt as seen by `makeESRequest`: either the
transport fails or a response with some status code arrives. -/
inductive ReqOutcome
| transportErr
| response (code : Int)
deriving DecidableEq, Repr

/-- Errors produced by one API-call attempt or by the retry loop:
`retrySentinel` is the package-level `errRetry`, `requestFailed` the wrapped
transport error of a non-retryable call, `statusFailed c` the
"request failed with status code c" error, and `waitTimeout` the
`wait.ErrWaitTimeout` escaping `retry.OnError` when no attempt ran. -/
inductive CallErr
| retrySentinel
| requestFailed
| statusFailed (code : Int)
| waitTimeout
deriving DecidableEq, Repr

/-- Embedding of `makeESRequest` (src/pkg/postprovision/elasticsearch.go
lines 261-300) for a given attempt outcome: a transport error or a status
code outside `successCodes` yields `errRetry` when the call's retry flag is
set and a terminal error otherwise; a success code yields nil. -/
def makeESRequest (ac : APICall) (o : ReqOutcome) : Option CallErr :=
  match o with
  | .transportErr => if ac.retry then some .retrySentinel else some .requestFailed
  | .response code =>
    if ac.isSuccessful code then none
    else if ac.retry then some .retrySentinel else some (.statusFailed code)

/-- Embedding of `retry.OnError` over `wait.ExponentialBackoff` from the
vendored k8s.io/client-go and apimachinery sources: run the attempt while
steps remain; a nil result stops with success, a non-retriable error stops
with that error, a retriable error is remembered as `lastErr` and retried;
exhausting the steps yields `ErrWaitTimeout`, which `OnError` replaces by
`lastErr`.  The pair returned is (final error, number of attempts made);
backoff sleeps are irrelevant to the result and not modelled. -/
def onErrorGo (retriable : CallErr → Bool) (fn : Nat → Option CallErr) :
    Nat → Nat → Option CallErr → Option CallErr × Nat
| 0, made, lastErr => (lastErr, made)
| steps + 1, made, _lastErr =>
  match fn made with
  | none => (none, made + 1)
  | some e =>
    if retriable e then onErrorGo retriable fn steps (made + 1) (some e)
    else (some e, made + 1)

/-- Entry point of the retry loop with the step budget of the backoff
policy. -/
def retryOnError (steps : Nat) (retriable : CallErr → Bool) (fn : Nat → Option CallErr) :
    Option CallErr × Nat :=
  onErrorGo retriable fn steps 0 none

/-- Embedding of the `for i, ac := range jd.APICalls` loop of
`issueAPICalls` (elasticsearch.go lines 235-259): each call runs under
`retry.OnError` with the shared backoff policy and the `errors.Is(err,
errRetry)` retriability test; the first call whose loop ends in an error
aborts the sequence.  `behavior i n` is the outcome of attempt `n` of call
`i`; request construction (`toESRequest`) succeeds for every call built from
the closed method enum and is not modelled separately.  The returned list
gives the number of attempts made for each declared call, 0 for calls never
reached. -/
def issueAPICallsFrom (behavior : Nat → Nat → ReqOutcome) (steps : Nat) :
    Nat → List APICall → Option CallErr × List Nat
| _, [] => (none, [])
| i, ac :: rest =>
  match retryOnError steps (fun e => e == CallErr.retrySentinel)
      (fun n => makeESRequest ac (behavior i n)) with
  | (some e, att) => (some e, att :: rest.map (fun _ => 0))
  | (none, att) =>
    let tail := issueAPICallsFrom behavior steps (i + 1) rest
    (tail.1, att :: tail.2)

/-- Embedding of `issueAPICalls` (elasticsearch.go lines 235-259). -/
def issueAPICalls (jd : PPJobDef) (behavior : Nat → Nat → ReqOutcome) :
    Option CallErr × List Nat :=
  issueAPICallsFrom behavior (toBackoff jd.clientConf).steps.toNat 0 jd.apiCalls

/-- Watch events delivered to the handler of `waitForElasticsearch`
(elasticsearch.go lines 89-135).  For add/update events, `health` is the
outcome of building a client for the event's resource and querying cluster
health: `none` when either step errors (the event is ignored), `some h` the
reported status.  `other` is an event whose payload fails the type
assertion. -/
inductive WatchEvent
| add (name : String) (health : Option String)
| update (name : String) (health : Option String)
| delete (name : String)
| other
deriving DecidableEq, Repr

/-- Terminal error of the wait. -/
inductive WaitErr
| resourceDeleted
deriving DecidableEq, Repr

/-- Value placed on the result channel by a handler. -/
inductive WaitOutcome
| ready (name : String)
| deleted
deriving DecidableEq, Repr

/-- Embedding of the `checkESReady` closure (elasticsearch.go lines
89-116): mismatching names, client/health errors and non-green health are
ignored; green health sends the resource. -/
def checkESReady (targetName name : String) (health : Option String) : Option WaitOutcome :=
  if name ≠ targetName then none
  else
    match health with
    | none => none
    | some h => if h = "green" then some (.ready name) else none

/-- What each handler of `waitForElasticsearch` sends to the result channel
for one event, if anything (elasticsearch.go lines 118-135). -/
def handlerSend (targetName : String) : WatchEvent → Option WaitOutcome
| .add name health => checkESReady targetName name health
| .update name health => checkESReady targetName name health
| .delete name => if name = targetName then some .deleted else none
| .other => none

/-- Embedding of the resolution of `waitForElasticsearch` (elasticsearch.go
lines 83-152) over the finite stream of events the watch delivers: the
buffered result channel receives the first matching send and `r := <-result`
returns it.  `none` means no handler ever sends: the receive has no
`ctx.Done` case, so the function blocks forever — the timeout context
created at lines 142-143 cancels only the informer. -/
def waitForElasticsearch (targetName : String) (events : List WatchEvent) : Option WaitOutcome :=
  events.findSome? (handlerSend targetName)

/-- Embedding of `defaultTimeout` (elasticsearch.go line 37): 15 minutes in
nanoseconds. -/
def defaultTimeout : Int := 15 * 60 * nsPerSecond

/-- Timeout selection of `waitForElasticsearch` (elasticsearch.go lines
137-140): `noProgressTimeout` when positive, else the default. -/
def waitTimeoutNs (jd : PPJobDef) : Int :=
  if jd.noProgressTimeout > 0 then jd.noProgressTimeout else defaultTimeout

/-- Errors returned by `runElasticsearchJob`, each wrapping the failing
stage (elasticsearch.go lines 45-76). -/
inductive RunErr
| findFailed (e : WaitErr)
| clientFailed
| callsFailed (e : CallErr)
| annotateFailed
deriving DecidableEq, Repr

/-- Observable outcome of one job run: the returned error, the attempts made
per declared API call ([] when the call stage was never reached), and
whether the completion annotation was persisted. -/
structure RunOutcome where
  err : Option RunErr
  apiAttempts : List Nat
  annotated : Bool
deriving DecidableEq, Repr

/-- External environment of one job run: the watch events delivered during
the wait, the outcome of client construction after the wait, the HTTP
attempt outcomes, and the outcome of the `annotateAsDone` conflict-retry
loop. -/
structure RunEnv where
  events : List WatchEvent
  clientOk : Bool
  behavior : Nat → Nat → ReqOutcome
  annotateOk : Bool

/-- Embedding of `runElasticsearchJob` (elasticsearch.go lines 45-76): wait,
build client, issue calls, annotate; each stage's failure aborts the rest.
The result is `none` when the wait blocks forever. -/
def runElasticsearchJob (jd : PPJobDef) (env : RunEnv) : Option RunOutcome :=
  match waitForElasticsearch jd.target.name env.events with
  | none => none
  | some .deleted =>
    some { err := some (.findFailed .resourceDeleted), apiAttempts := [], annotated := false }
  | some (.ready _) =>
    if env.clientOk then
      match issueAPICalls jd env.behavior with
      | (some e, atts) => some { err := some (.callsFailed e), apiAttempts := atts, annotated := false }
      | (none, atts) =>
        if env.annotateOk then some { err := none, apiAttempts := atts, annotated := true }
        else some { err := some .annotateFailed, apiAttempts := atts, annotated := false }
    else some { err := some .clientFailed, apiAttempts := [], annotated := false }

/-- C5: a call whose retry flag is false never produces the retry sentinel,
so its first failed attempt is terminal; in particular a two-call sequence
whose first call answers with a non-success status and has retry=false makes
`issueAPICalls` return that call's status error after exactly one attempt of
the first call and zero attempts of the second.  The step budget is at least
one whenever an attempt can receive a response at all. -/
theorem C5_executor_fail_fast :
    (∀ (ac : APICall) (o : ReqOutcome), ac.retry = false →
      makeESRequest ac o ≠ some CallErr.retrySentinel) ∧
    (∀ (jd : PPJobDef) (behavior : Nat → Nat → ReqOutcome) (ac1 ac2 : APICall) (code : Int),
      jd.apiCalls = [ac1, ac2] →
      ac1.retry = false →
      behavior 0 0 = .response code →
      ac1.isSuccessful code = false →
      1 ≤ (toBackoff jd.clientConf).steps →
      issueAPICalls jd behavior = (some (.statusFailed code), [1, 0])) := by
  constructor
  · intro ac o hretry
    cases o with
    | transportErr => simp [makeESRequest, hretry]
    | response code =>
      by_cases hs : ac.isSuccessful code = true
      · simp [makeESRequest, hs]
      · simp only [Bool.not_eq_true] at hs
        simp [makeESRequest, hs, hretry]
  · intro jd behavior ac1 ac2 code hcalls hretry hb hsucc hsteps
    obtain ⟨m, hm⟩ : ∃ m, (toBackoff jd.clientConf).steps.toNat = m + 1 :=
      ⟨(toBackoff jd.clientConf).steps.toNat - 1, by omega⟩
    have hfn : makeESRequest ac1 (behavior 0 0) = some (CallErr.statusFailed code) := by
      rw [hb]
      simp [makeESRequest, hsucc, hretry]
    simp only [issueAPICalls, hcalls, hm, issueAPICallsFrom, retryOnError, onErrorGo, hfn]
    simp [List.map]

/-- C5 witness: a concrete two-call job whose first call receives status 500
against successCodes=[200] with retry=false aborts after one attempt of the
first call and none of the second. -/
theorem C5_executor_fail_fast_witness :
    issueAPICalls
      { target := { kind := .elasticsearch, name := "quickstart", nspace := "default" },
        apiCalls :=
          [{ method := .post, path := "a", payload := "", successCodes := [200], retry := false },
           { method := .put, path := "b", payload := "", successCodes := [200], retry := true }],
        clientConf := none, noProgressTimeout := 0 }
      (fun _ _ => .response 500) = (some (.statusFailed 500), [1, 0]) :=
  C5_executor_fail_fast.2
    { target := { kind := .elasticsearch, name := "quickstart", nspace := "default" },
      apiCalls :=
        [{ method := .post, path := "a", payload := "", successCodes := [200], retry := false },
         { method := .put, path := "b", payload := "", successCodes := [200], retry := true }],
      clientConf := none, noProgressTimeout := 0 }
    (fun _ _ => .response 500)
    { method := .post, path := "a", payload := "", successCodes := [200], retry := false }
    { method := .put, path := "b", payload := "", successCodes := [200], retry := true }
    500 rfl rfl rfl (by decide) (by decide)

/-- C6: whenever the cluster-readiness wait resolves with the
resource-deleted outcome, the job run terminates with the wrapped
ResourceDeletedError, no API call is ever attempted (empty attempts list)
and the completion annotation is not written. -/
theorem C6_deleted_no_calls_no_mark :
    ∀ (jd : PPJobDef) (env : RunEnv),
      waitForElasticsearch jd.target.name env.events = some .deleted →
      runElasticsearchJob jd env =
        some { err := some (.findFailed .resourceDeleted), apiAttempts := [], annotated := false } := by
  intro jd env h
  simp [runElasticsearchJob, h]

/-- C6 witness: a run whose watch delivers a delete event for the target
name terminates with the resource-deleted error, zero API attempts and no
annotation. -/
theorem C6_deleted_no_calls_no_mark_witness :
    runElasticsearchJob
      { target := { kind := .elasticsearch, name := "quickstart", nspace := "default" },
        apiCalls := [{ method := .post, path := "a", payload := "", successCodes := [200], retry := true }],
        clientConf := none, noProgressTimeout := 0 }
      { events := [.delete "quickstart"], clientOk := true,
        behavior := fun _ _ => .response 200, annotateOk := true } =
      some { err := some (.findFailed .resourceDeleted), apiAttempts := [], annotated := false } :=
  C6_deleted_no_calls_no_mark
    { target := { kind := .elasticsearch, name := "quickstart", nspace := "default" },
      apiCalls := [{ method := .post, path := "a", payload := "", successCodes := [200], retry := true }],
      clientConf := none, noProgressTimeout := 0 }
    { events := [.delete "quickstart"], clientOk := true,
      behavior := fun _ _ => .response 200, annotateOk := true }
    (by decide)

/-- C3: the timeout is selected exactly as the claim says (noProgressTimeout
when positive, else the 15-minute default), but when no matching
create/update event ever reports green health and no matching delete event
arrives, the wait produces no result at all — the channel receive blocks
forever instead of failing with a deadline error, because nothing ever sends
on the result channel and the receive has no timeout case.  Evaluated at the
failing input: an empty event stream, and a stream with only non-green and
non-matching events. -/
theorem C3_wait_blocks_despite_timeout :
    waitTimeoutNs { target := { kind := .elasticsearch, name := "quickstart", nspace := "default" },
                    apiCalls := [], clientConf := none, noProgressTimeout := 0 } = defaultTimeout ∧
    waitTimeoutNs { target := { kind := .elasticsearch, name := "quickstart", nspace := "default" },
                    apiCalls := [], clientConf := none, noProgressTimeout := 42 } = 42 ∧
    defaultTimeout = 15 * 60 * nsPerSecond ∧
    waitForElasticsearch "quickstart" [] = none ∧
    waitForElasticsearch "quickstart"
      [.add "quickstart" (some "yellow"), .add "quickstart" none,
       .update "other" (some "green"), .delete "other"] = none ∧
    runElasticsearchJob
      { target := { kind := .elasticsearch, name := "quickstart", nspace := "default" },
        apiCalls := [{ method := .post, path := "a", payload := "", successCodes := [200], retry := true }],
        clientConf := none, noProgressTimeout := 0 }
      { events := [.add "quickstart" (some "yellow")], clientOk := true,
        behavior := fun _ _ => .response 200, annotateOk := true } = none := by
  refine ⟨by decide, by decide, by decide, by decide, by decide, by decide⟩

/-- Pod condition status (`corev1.ConditionStatus`). -/
inductive CondStatus
| ctrue
| cfalse
| cunknown
deriving DecidableEq, Repr

/-- Embedding of `corev1.PodCondition` restricted to the fields the
reconcilers touch; times are clock readings. -/
structure PodCondition where
  condType : String
  status : CondStatus
  lastProbeTime : Int
  lastTransitionTime : Int
deriving DecidableEq, Repr

/-- Embedding of a Pod as the reconcilers see it: labels and status
conditions. -/
structure Pod where
  labels : Option AnnMap
  conditions : List PodCondition
deriving DecidableEq, Repr

/-- Modelled from the spec: the cluster-membership label key of
pkg/controller/elasticsearch/label (its file is not under src); only its
identity as a fixed key matters here. -/
def clusterNameLabel : String := "elasticsearch.k8s.elastic.co/cluster-name"

/-- Modelled from the spec: the `postprovision.ReadinessGate` condition-type
constant (its file is not under src); a fixed condition-type name Pods
declare as a readiness gate. -/
def readinessGate : String := "eck.k8s.elastic.co/post-provision"

/-- Errors of a Kubernetes Get, distinguishing NotFound because variant A
treats it specially. -/
inductive K8sGetErr
| notFound
| other
deriving DecidableEq, Repr

/-- Errors of a Pod status update, distinguishing optimistic-concurrency
conflicts. -/
inductive UpdateErr
| conflict
| other
deriving DecidableEq, Repr

/-- External inputs of one reconciliation run: outcomes of the Pod Get, the
Elasticsearch Get (only its object metadata is read), the status update, and
the current clock reading. -/
structure ReconcileWorld where
  podGet : Except K8sGetErr Pod
  esGet : Except K8sGetErr ObjectMeta
  updateResult : Option UpdateErr
  now : Int

/-- Errors a reconciliation run can return. -/
inductive RecErr
| podGetFailed (e : K8sGetErr)
| esGetFailed (e : K8sGetErr)
| updateFailed (e : UpdateErr)
deriving DecidableEq, Repr

/-- Observable outcome of a reconciliation run: the requeue flag of the
returned `reconcile.Result`, the returned error, whether `Status().Update`
was called, and the Pod state passed to it. -/
structure RecOut where
  requeue : Bool
  err : Option RecErr
  updateCalled : Bool
  podWritten : Option Pod
deriving DecidableEq, Repr

/-- Run outcome of the no-op paths: empty result, nil error, no update. -/
def noopOut : RecOut :=
  { requeue := false, err := none, updateCalled := false, podWritten := none }

/-- Go `len(pod.GetLabels())`. -/
def podLabelsLen (p : Pod) : Nat :=
  (p.labels.getD []).length

/-- Label lookup with presence flag (`esName, ok := labels[k]`). -/
def lookupLabel (p : Pod) (k : String) : Option String :=
  lookupAnn (p.labels.getD []) k

/-- Condition value variant A derives from the target's metadata
(model.go lines 574-577), using the gate-less completion check of its
revision. -/
def condValueA (esMeta : ObjectMeta) : CondStatus :=
  if isPostProvisionCompleteNoGate esMeta then .ctrue else .cfalse

/-- Embedding of variant A's condition loop (model.go lines 581-593): every
condition of the gate type gets the derived status (the source writes it
only when it differs, which is the same list), its transition time is
rewritten exactly when the status differs, and its probe time is always
refreshed. -/
def updateCondsTS (conds : List PodCondition) (condValue : CondStatus) (now : Int) :
    List PodCondition :=
  conds.map (fun c =>
    if c.condType = readinessGate then
      { condType := c.condType
        status := condValue
        lastProbeTime := now
        lastTransitionTime := if c.status ≠ condValue then now else c.lastTransitionTime }
    else c)

/-- Embedding of the timestamped reconciler variant
(`reconcilePostProvision.Reconcile`, model.go lines 542-613): fetch Pod (any
error returned), skip Pods without the cluster label, fetch the
Elasticsearch (NotFound is a no-op, other errors returned), derive the
condition value from the completion annotation, rewrite or append the gate
condition, and always call `Status().Update`; a conflict maps to
requeue-without-error, other update errors are returned. -/
def reconcileA (w : ReconcileWorld) : RecOut :=
  match w.podGet with
  | .error e => { requeue := false, err := some (.podGetFailed e), updateCalled := false, podWritten := none }
  | .ok pod =>
    if podLabelsLen pod = 0 then noopOut
    else
      match lookupLabel pod clusterNameLabel with
      | none => noopOut
      | some _ =>
        match w.esGet with
        | .error .notFound => noopOut
        | .error .other =>
          { requeue := false, err := some (.esGetFailed .other), updateCalled := false, podWritten := none }
        | .ok esMeta =>
          let condValue := condValueA esMeta
          let rewritten := updateCondsTS pod.conditions condValue w.now
          let found := pod.conditions.any (fun c => c.condType == readinessGate)
          let newConds :=
            if found then rewritten
            else rewritten ++ [{ condType := readinessGate, status := condValue,
                                 lastProbeTime := w.now, lastTransitionTime := w.now }]
          let pod' : Pod := { pod with conditions := newConds }
          match w.updateResult with
          | some .conflict => { requeue := true, err := none, updateCalled := true, podWritten := some pod' }
          | some .other =>
            { requeue := false, err := some (.updateFailed .other), updateCalled := true, podWritten := some pod' }
          | none => { requeue := false, err := none, updateCalled := true, podWritten := some pod' }

/-- Embedding of variant B's condition loop (model.go lines 728-733): the
first condition of the gate type whose status is not True gets status True —
only the status field — and the loop returns with the update; `none` when no
such condition exists (the run ends without an update). -/
def setFirstGateCond (rg : String) : List PodCondition → Option (List PodCondition)
| [] => none
| c :: rest =>
  if c.condType = rg ∧ c.status ≠ CondStatus.ctrue then
    some ({ c with status := CondStatus.ctrue } :: rest)
  else (setFirstGateCond rg rest).map (fun l => c :: l)

/-- Embedding of the gate-aware reconciler variant
(`reconcilePostProvision.Reconcile`, model.go lines 693-736): fetch Pod and
Elasticsearch (any error of either returned, NotFound included), no-op when
the gate annotation is empty, requeue while post-provision is incomplete,
and otherwise set the first non-True gate condition to True, returning the
status update's error as-is (conflicts included). -/
def reconcileB (w : ReconcileWorld) : RecOut :=
  match w.podGet with
  | .error e => { requeue := false, err := some (.podGetFailed e), updateCalled := false, podWritten := none }
  | .ok pod =>
    if podLabelsLen pod = 0 then noopOut
    else
      match lookupLabel pod clusterNameLabel with
      | none => noopOut
      | some _ =>
        match w.esGet with
        | .error e =>
          { requeue := false, err := some (.esGetFailed e), updateCalled := false, podWritten := none }
        | .ok esMeta =>
          if getPostProvisionReadinessGate esMeta = "" then noopOut
          else if isPostProvisionComplete esMeta = false then
            { requeue := true, err := none, updateCalled := false, podWritten := none }
          else
            match setFirstGateCond (getPostProvisionReadinessGate esMeta) pod.conditions with
            | some conds' =>
              let pod' : Pod := { pod with conditions := conds' }
              match w.updateResult with
              | some e =>
                { requeue := false, err := some (.updateFailed e), updateCalled := true, podWritten := some pod' }
              | none => { requeue := false, err := none, updateCalled := true, podWritten := some pod' }
            | none => noopOut

theorem setFirstGateCond_none (rg : String) (l : List PodCondition)
    (h : ∀ c ∈ l, c.condType = rg → c.status = CondStatus.ctrue) :
    setFirstGateCond rg l = none := by
  induction l with
  | nil => rfl
  | cons c rest ih =>
    have hc : ¬ (c.condType = rg ∧ c.status ≠ CondStatus.ctrue) := by
      rintro ⟨ht, hs⟩
      exact hs (h c (List.mem_cons_self c rest) ht)
    have hrest : setFirstGateCond rg rest = none :=
      ih (fun d hd => h d (List.mem_cons_of_mem c hd))
    simp [setFirstGateCond, hc, hrest]

theorem setFirstGateCond_proj (rg : String) :
    ∀ (l l' : List PodCondition), setFirstGateCond rg l = some l' →
      l'.map (fun c => (c.condType, c.lastProbeTime, c.lastTransitionTime))
        = l.map (fun c => (c.condType, c.lastProbeTime, c.lastTransitionTime)) := by
  intro l
  induction l with
  | nil => intro l' h; simp [setFirstGateCond] at h
  | cons c rest ih =>
    intro l' h
    by_cases hc : c.condType = rg ∧ c.status ≠ CondStatus.ctrue
    · simp only [setFirstGateCond, if_pos hc, Option.some.injEq] at h
      subst h
      simp
    · simp only [setFirstGateCond, if_neg hc] at h
      cases hrest : setFirstGateCond rg rest with
      | none => rw [hrest] at h; simp at h
      | some tail =>
        rw [hrest] at h
        simp only [Option.map, Option.some.injEq] at h
        subst h
        simp [ih tail hrest]

theorem reconcileA_update_path (w : ReconcileWorld) (pod : Pod) (esMeta : ObjectMeta)
    (esName : String)
    (hpod : w.podGet = .ok pod) (hes : w.esGet = .ok esMeta)
    (h0 : podLabelsLen pod ≠ 0) (hl : lookupLabel pod clusterNameLabel = some esName) :
    (reconcileA w).updateCalled = true ∧
    (reconcileA w).podWritten = some { pod with conditions :=
      (if pod.conditions.any (fun c => c.condType == readinessGate)
       then updateCondsTS pod.conditions (condValueA esMeta) w.now
       else updateCondsTS pod.conditions (condValueA esMeta) w.now
         ++ [{ condType := readinessGate, status := condValueA esMeta,
               lastProbeTime := w.now, lastTransitionTime := w.now }]) } := by
  cases hu : w.updateResult with
  | none =>
    constructor <;> simp [reconcileA, hpod, hes, h0, hl, hu]
  | some e =>
    cases e <;> (constructor <;> simp [reconcileA, hpod, hes, h0, hl, hu])

theorem updateCondsTS_getElem (conds : List PodCondition) (cv : CondStatus) (now : Int)
    (i : Nat) (c : PodCondition) (hc : conds[i]? = some c)
    (ht : c.condType = readinessGate) :
    (updateCondsTS conds cv now)[i]? =
      some { condType := c.condType, status := cv, lastProbeTime := now,
             lastTransitionTime := if c.status ≠ cv then now else c.lastTransitionTime } := by
  simp [updateCondsTS, List.getElem?_map, hc, ht]

/-- C2 counterexample: in the timestamped reconciler (variant A), a Pod
whose gate condition is already True while the target is complete still
triggers a `Status().Update` call (the probe time is refreshed on every
run), refuting "no persistence call"; and in the gate-aware reconciler
(variant B), flipping the condition from False to True leaves the transition
timestamp untouched (3, not the current clock 5), refuting "updates the
transition timestamp". -/
theorem C2_counterexample :
    (reconcileA { podGet := .ok { labels := some [(clusterNameLabel, "test")],
                                  conditions := [{ condType := readinessGate, status := .ctrue,
                                                   lastProbeTime := 0, lastTransitionTime := 0 }] },
                  esGet := .ok { annotations := some [(ppCompleteKey, "true")] },
                  updateResult := none, now := 5 }).updateCalled = true ∧
    (reconcileB { podGet := .ok { labels := some [(clusterNameLabel, "test")],
                                  conditions := [{ condType := "mygate", status := .cfalse,
                                                   lastProbeTime := 3, lastTransitionTime := 3 }] },
                  esGet := .ok { annotations := some [(ppGateKey, "mygate"), (ppCompleteKey, "true")] },
                  updateResult := none, now := 5 }).podWritten
      = some { labels := some [(clusterNameLabel, "test")],
               conditions := [{ condType := "mygate", status := .ctrue,
                                lastProbeTime := 3, lastTransitionTime := 3 }] } := by
  constructor
  · decide
  · decide

/-- C2 amended: in the gate-aware reconciler (variant B) a run in which
every matching gate condition already has status True performs no status
update, and any Pod state it does write differs from the fetched Pod only in
condition statuses — labels and both timestamps are unchanged (so the
transition timestamp is NOT updated on a status change); in the timestamped
reconciler (variant A) a run that reaches the condition logic always calls
`Status().Update`, and an existing gate condition's transition timestamp is
rewritten to the current clock exactly when its status actually changes. -/
theorem C2_reconcile_write_behavior :
    (∀ (w : ReconcileWorld) (pod : Pod) (esMeta : ObjectMeta),
      w.podGet = .ok pod → w.esGet = .ok esMeta →
      (∀ c ∈ pod.conditions, c.condType = getPostProvisionReadinessGate esMeta →
        c.status = CondStatus.ctrue) →
      (reconcileB w).updateCalled = false) ∧
    (∀ (w : ReconcileWorld) (pod : Pod) (esMeta : ObjectMeta) (conds' : List PodCondition),
      w.podGet = .ok pod → w.esGet = .ok esMeta →
      setFirstGateCond (getPostProvisionReadinessGate esMeta) pod.conditions = some conds' →
      ∀ pod', (reconcileB w).podWritten = some pod' →
        pod'.labels = pod.labels ∧
        pod'.conditions.map (fun c => (c.condType, c.lastProbeTime, c.lastTransitionTime))
          = pod.conditions.map (fun c => (c.condType, c.lastProbeTime, c.lastTransitionTime))) ∧
    (∀ (w : ReconcileWorld) (pod : Pod) (esMeta : ObjectMeta) (esName : String),
      w.podGet = .ok pod → w.esGet = .ok esMeta →
      podLabelsLen pod ≠ 0 → lookupLabel pod clusterNameLabel = some esName →
      (reconcileA w).updateCalled = true ∧
      (∀ pod', (reconcileA w).podWritten = some pod' →
        ∀ (i : Nat) (c : PodCondition), pod.conditions[i]? = some c →
          c.condType = readinessGate →
          ∃ c', pod'.conditions[i]? = some c' ∧
            c'.status = condValueA esMeta ∧
            c'.lastTransitionTime =
              (if c.status = condValueA esMeta then c.lastTransitionTime else w.now))) := by
  refine ⟨?_, ?_, ?_⟩
  · intro w pod esMeta hpod hes hall
    by_cases h0 : podLabelsLen pod = 0
    · simp [reconcileB, hpod, hes, h0, noopOut]
    · cases hl : lookupLabel pod clusterNameLabel with
      | none => simp [reconcileB, hpod, hes, h0, hl, noopOut]
      | some esName =>
        by_cases hg : getPostProvisionReadinessGate esMeta = ""
        · simp [reconcileB, hpod, hes, h0, hl, hg, noopOut]
        · by_cases hcm : isPostProvisionComplete esMeta = false
          · simp [reconcileB, hpod, hes, h0, hl, hg, hcm]
          · have hset := setFirstGateCond_none (getPostProvisionReadinessGate esMeta)
              pod.conditions hall
            simp [reconcileB, hpod, hes, h0, hl, hg, hcm, hset, noopOut]
  · intro w pod esMeta conds' hpod hes hset pod' hw
    by_cases h0 : podLabelsLen pod = 0
    · simp [reconcileB, hpod, hes, h0, noopOut] at hw
    · cases hl : lookupLabel pod clusterNameLabel with
      | none => simp [reconcileB, hpod, hes, h0, hl, noopOut] at hw
      | some esName =>
        by_cases hg : getPostProvisionReadinessGate esMeta = ""
        · simp [reconcileB, hpod, hes, h0, hl, hg, noopOut] at hw
        · by_cases hcm : isPostProvisionComplete esMeta = false
          · simp [reconcileB, hpod, hes, h0, hl, hg, hcm] at hw
          · cases hu : w.updateResult with
            | some e =>
              simp [reconcileB, hpod, hes, h0, hl, hg, hcm, hset, hu] at hw
              rw [← hw]
              exact ⟨rfl, setFirstGateCond_proj _ _ _ hset⟩
            | none =>
              simp [reconcileB, hpod, hes, h0, hl, hg, hcm, hset, hu] at hw
              rw [← hw]
              exact ⟨rfl, setFirstGateCond_proj _ _ _ hset⟩
  · intro w pod esMeta esName hpod hes h0 hl
    have hpath := reconcileA_update_path w pod esMeta esName hpod hes h0 hl
    refine ⟨hpath.1, ?_⟩
    intro pod' hw i c hc htype
    rw [hpath.2] at hw
    simp only [Option.some.injEq] at hw
    subst hw
    have hupd := updateCondsTS_getElem pod.conditions (condValueA esMeta) w.now i c hc htype
    have hilen : i < pod.conditions.length := by
      by_contra hge
      rw [List.getElem?_eq_none (Nat.le_of_not_lt hge)] at hc
      exact Option.noConfusion hc
    have hulen : i < (updateCondsTS pod.conditions (condValueA esMeta) w.now).length := by
      simpa [updateCondsTS] using hilen
    by_cases hfound : (pod.conditions.any fun cc => cc.condType == readinessGate) = true
    · refine ⟨{ condType := c.condType, status := condValueA esMeta, lastProbeTime := w.now,
                lastTransitionTime := if c.status ≠ condValueA esMeta then w.now
                                      else c.lastTransitionTime }, ?_, rfl, ?_⟩
      · show (if (pod.conditions.any fun cc => cc.condType == readinessGate) = true
              then updateCondsTS pod.conditions (condValueA esMeta) w.now
              else updateCondsTS pod.conditions (condValueA esMeta) w.now
                ++ [{ condType := readinessGate, status := condValueA esMeta,
                      lastProbeTime := w.now, lastTransitionTime := w.now }])[i]? =
            some { condType := c.condType, status := condValueA esMeta, lastProbeTime := w.now,
                   lastTransitionTime := if c.status ≠ condValueA esMeta then w.now
                                         else c.lastTransitionTime }
        rw [if_pos hfound]
        exact hupd
      · by_cases hst : c.status = condValueA esMeta
        · simp [hst]
        · simp [hst]
    · refine ⟨{ condType := c.condType, status := condValueA esMeta, lastProbeTime := w.now,
                lastTransitionTime := if c.status ≠ condValueA esMeta then w.now
                                      else c.lastTransitionTime }, ?_, rfl, ?_⟩
      · show (if (pod.conditions.any fun cc => cc.condType == readinessGate) = true
              then updateCondsTS pod.conditions (condValueA esMeta) w.now
              else updateCondsTS pod.conditions (condValueA esMeta) w.now
                ++ [{ condType := readinessGate, status := condValueA esMeta,
                      lastProbeTime := w.now, lastTransitionTime := w.now }])[i]? =
            some { condType := c.condType, status := condValueA esMeta, lastProbeTime := w.now,
                   lastTransitionTime := if c.status ≠ condValueA esMeta then w.now
                                         else c.lastTransitionTime }
        rw [if_neg hfound, List.getElem?_append, if_pos hulen]
        exact hupd
      · by_cases hst : c.status = condValueA esMeta
        · simp [hst]
        · simp [hst]

/-- C2 witness: a gate-aware reconciliation of a Pod whose gate condition is
already True against a complete target calls no status update. -/
theorem C2_reconcile_write_behavior_witness :
    (reconcileB { podGet := .ok { labels := some [(clusterNameLabel, "test")],
                                  conditions := [{ condType := "mygate", status := .ctrue,
                                                   lastProbeTime := 1, lastTransitionTime := 1 }] },
                  esGet := .ok { annotations := some [(ppGateKey, "mygate"), (ppCompleteKey, "true")] },
                  updateResult := none, now := 7 }).updateCalled = false :=
  C2_reconcile_write_behavior.1
    { podGet := .ok { labels := some [(clusterNameLabel, "test")],
                      conditions := [{ condType := "mygate", status := .ctrue,
                                       lastProbeTime := 1, lastTransitionTime := 1 }] },
      esGet := .ok { annotations := some [(ppGateKey, "mygate"), (ppCompleteKey, "true")] },
      updateResult := none, now := 7 }
    { labels := some [(clusterNameLabel, "test")],
      conditions := [{ condType := "mygate", status := .ctrue,
                       lastProbeTime := 1, lastTransitionTime := 1 }] }
    { annotations := some [(ppGateKey, "mygate"), (ppCompleteKey, "true")] }
    rfl rfl (by decide)

/-- C7 counterexample: in the gate-aware reconciler (variant B), a status
update rejected with an optimistic-concurrency conflict is returned as a
reconciliation error with no requeue flag — the conflict is not converted to
a requeue-without-error, refuting the claim for that reconciler. -/
theorem C7_counterexample :
    (reconcileB { podGet := .ok { labels := some [(clusterNameLabel, "test")],
                                  conditions := [{ condType := "mygate", status := .cfalse,
                                                   lastProbeTime := 3, lastTransitionTime := 3 }] },
                  esGet := .ok { annotations := some [(ppGateKey, "mygate"), (ppCompleteKey, "true")] },
                  updateResult := some .conflict, now := 5 }).requeue = false ∧
    (reconcileB { podGet := .ok { labels := some [(clusterNameLabel, "test")],
                                  conditions := [{ condType := "mygate", status := .cfalse,
                                                   lastProbeTime := 3, lastTransitionTime := 3 }] },
                  esGet := .ok { annotations := some [(ppGateKey, "mygate"), (ppCompleteKey, "true")] },
                  updateResult := some .conflict, now := 5 }).err
      = some (.updateFailed .conflict) := by
  constructor
  · decide
  · decide

/-- C7 amended: the timestamped reconciler (variant A) returns a requeue
request with no error on an update conflict and propagates any other update
error as a reconciliation failure; the gate-aware reconciler (variant B)
returns every status-update error as a reconciliation failure without
requeue, conflicts included. -/
theorem C7_conflict_handling :
    (∀ (w : ReconcileWorld) (pod : Pod) (esMeta : ObjectMeta) (esName : String),
      w.podGet = .ok pod → w.esGet = .ok esMeta →
      podLabelsLen pod ≠ 0 → lookupLabel pod clusterNameLabel = some esName →
      (w.updateResult = some .conflict →
        (reconcileA w).requeue = true ∧ (reconcileA w).err = none) ∧
      (w.updateResult = some .other →
        (reconcileA w).requeue = false ∧
        (reconcileA w).err = some (.updateFailed .other))) ∧
    (∀ (w : ReconcileWorld) (pod : Pod) (esMeta : ObjectMeta) (esName : String)
        (conds' : List PodCondition) (e : UpdateErr),
      w.podGet = .ok pod → w.esGet = .ok esMeta →
      podLabelsLen pod ≠ 0 → lookupLabel pod clusterNameLabel = some esName →
      getPostProvisionReadinessGate esMeta ≠ "" →
      isPostProvisionComplete esMeta = true →
      setFirstGateCond (getPostProvisionReadinessGate esMeta) pod.conditions = some conds' →
      w.updateResult = some e →
      (reconcileB w).requeue = false ∧ (reconcileB w).err = some (.updateFailed e)) := by
  constructor
  · intro w pod esMeta esName hpod hes h0 hl
    constructor
    · intro hu
      constructor <;> simp [reconcileA, hpod, hes, h0, hl, hu]
    · intro hu
      constructor <;> simp [reconcileA, hpod, hes, h0, hl, hu]
  · intro w pod esMeta esName conds' e hpod hes h0 hl hg hcmpl hset hu
    constructor <;> simp [reconcileB, hpod, hes, h0, hl, hg, hcmpl, hset, hu]

/-- C7 witness: a concrete timestamped-reconciler run whose update hits a
conflict yields requeue=true and no error. -/
theorem C7_conflict_handling_witness :
    (reconcileA { podGet := .ok { labels := some [(clusterNameLabel, "test")],
                                  conditions := [{ condType := readinessGate, status := .cfalse,
                                                   lastProbeTime := 0, lastTransitionTime := 0 }] },
                  esGet := .ok { annotations := some [(ppCompleteKey, "true")] },
                  updateResult := some .conflict, now := 5 }).requeue = true :=
  ((C7_conflict_handling.1
      { podGet := .ok { labels := some [(clusterNameLabel, "test")],
                        conditions := [{ condType := readinessGate, status := .cfalse,
                                         lastProbeTime := 0, lastTransitionTime := 0 }] },
        esGet := .ok { annotations := some [(ppCompleteKey, "true")] },
        updateResult := some .conflict, now := 5 }
      { labels := some [(clusterNameLabel, "test")],
        conditions := [{ condType := readinessGate, status := .cfalse,
                         lastProbeTime := 0, lastTransitionTime := 0 }] }
      { annotations := some [(ppCompleteKey, "true")] }
      "test" rfl rfl (by decide) (by decide)).1 rfl).1

end CloudOnK8s
